import Mathlib

/-!
Shallow embedding of the BananaClan backend product/seller catalog service
(`src/services/product.service.ts`, authoritative version in `src/unnamed/part_001`,
and the HTTP controllers in `src/controllers/seller.controller.ts`).

The external database client (supabase) is modelled by a `Store`: the rows the
queries would return plus a set of queries designated as failing.  Every service
operation is embedded as a pure function from a `Store` to an `Outcome`, which
records both the returned value (or a propagated upstream error) and the list
of queries the operation issued, in order.
-/

/-- Product tags, the closed enumeration `ProductTag` from `product.model.ts`. -/
inductive ProductTag
  | TRENDING
  | RECOMMENDED
deriving DecidableEq, BEq, Repr

/-- Shape in which the client may hand back an embedded one-to-one relation:
null/undefined, a bare record, or a collection of records. -/
inductive JoinRel (α : Type)
  | absent
  | obj (record : α)
  | arr (records : List α)
deriving DecidableEq

/-- Embeds the join-normalization expression repeated at every call site of the
service: `Array.isArray(x) ? x[0] : x`, with the absent case standing for a
null/undefined relation value (an out-of-range index read yields undefined). -/
def normalizeRel {α : Type} : JoinRel α → Option α
  | .absent => none
  | .obj record => some record
  | .arr records => records.head?

/-- Reinjects a normalization result into the relation shape, used to state
idempotence of `normalizeRel`. -/
def relOfOption {α : Type} : Option α → JoinRel α
  | none => .absent
  | some record => .obj record

/-- Partial seller record as selected by the joins: `sellers(store_name, logo_url)`. -/
structure SellerJoin where
  store_name : Option String
  logo_url : Option String
deriving DecidableEq

/-- Partial brand record as selected by the joins: `brands(name, logo_url)`. -/
structure BrandJoin where
  name : Option String
  logo_url : Option String
deriving DecidableEq

/-- A product row as the data queries return it, including the embedded
seller/brand relations in whichever shape the client produced them. -/
structure ProductRow where
  id : String
  name : String
  brand_id : String
  model_name : String
  images : Option (List String)
  seller_id : String
  color : String
  size_quantity : List (String × Nat)
  price : Int
  color_variants : Option (List String)
  tags : Option (List ProductTag)
  is_active : Bool
  sales_till_date : Nat
  created_at : Nat
  sellers : JoinRel SellerJoin
  brands : JoinRel BrandJoin
deriving DecidableEq

/-- A row of the brands table as selected by the brand-name lookup. -/
structure BrandRow where
  id : String
  name : String
deriving DecidableEq

/-- The distinct database queries the service issues, one constructor per call
site, carrying the parameters that call site passes to the client. -/
inductive Query
  | countActive
  | countActiveSeller (sellerId : String)
  | countActiveBrand (brandId : String)
  | countTag (tag : ProductTag)
  | dataLatest (offset limit : Nat)
  | dataByTag (tag : ProductTag) (offset limit : Nat)
  | dataOverall (offset limit : Nat)
  | dataBySeller (sellerId : String) (offset limit : Nat)
  | dataByBrand (brandId : String) (offset limit : Nat)
  | selectById (id : String)
  | selectVariants (ids : List String)
  | brandByName (name : String)
deriving DecidableEq

/-- The external store: the rows backing the products and brands tables, plus
the set of queries that report an upstream error when issued. -/
structure Store where
  products : List ProductRow
  brands : List BrandRow
  failing : List Query

/-- Result of running one service operation: the value produced (or the
propagated upstream failure) together with the queries issued, in order. -/
structure Outcome (α : Type) where
  result : Except Unit α
  queries : List Query

/-- The `PaginatedResult<T>` interface of the service. -/
structure PaginatedResult (α : Type) where
  data : List α
  total : Nat
  page : Nat
  limit : Nat
  totalPages : Nat
deriving DecidableEq

/-- The `SimplifiedProduct` list-view DTO; `created_at` and `sales_till_date`
are optional because only some orchestrators select them. -/
structure SimplifiedProduct where
  id : String
  name : String
  brand_name : String
  brand_logo : String
  seller_id : String
  seller_name : String
  seller_logo : String
  image : String
  price : Int
  created_at : Option Nat
  sales_till_date : Option Nat
deriving DecidableEq

/-- The `ProductVariant` DTO: id, color and one representative image. -/
structure ProductVariant where
  id : String
  color : String
  image : String
deriving DecidableEq

/-- The `ProductResponse` detail DTO returned by `getProductById`. -/
structure ProductResponse where
  id : String
  name : String
  brand_name : String
  brand_logo : String
  model_name : String
  images : Option (List String)
  seller_id : String
  seller_name : String
  seller_logo : String
  color : String
  size_quantity : List (String × Nat)
  price : Int
  color_variants : Option (List ProductVariant)
  tags : Option (List ProductTag)
deriving DecidableEq

/-- Embeds the JavaScript string fallback idiom `v || d`: a missing value or
the empty string (both falsy) select the default. -/
def jsOrStr (v : Option String) (d : String) : String :=
  match v with
  | some s => if s = "" then d else s
  | none => d

/-- Seller name as every orchestrator computes it:
`sellerData?.store_name || 'Unknown Seller'` after normalization. -/
def sellerNameOf (r : JoinRel SellerJoin) : String :=
  jsOrStr ((normalizeRel r).bind (fun s => s.store_name)) "Unknown Seller"

/-- Seller logo: `sellerData?.logo_url || ''`. -/
def sellerLogoOf (r : JoinRel SellerJoin) : String :=
  jsOrStr ((normalizeRel r).bind (fun s => s.logo_url)) ""

/-- Brand name: `brandData?.name || 'Unknown Brand'`. -/
def brandNameOf (r : JoinRel BrandJoin) : String :=
  jsOrStr ((normalizeRel r).bind (fun b => b.name)) "Unknown Brand"

/-- Brand logo: `brandData?.logo_url || ''`. -/
def brandLogoOf (r : JoinRel BrandJoin) : String :=
  jsOrStr ((normalizeRel r).bind (fun b => b.logo_url)) ""

/-- Representative image selection:
`Array.isArray(images) && images.length > 0 ? images[0] : ''`. -/
def firstImage : Option (List String) → String
  | some (h :: _) => h
  | _ => ""

/-- Row mapping of `getLatestProducts`: projection selects `created_at` but not
`sales_till_date`. -/
def simplifyLatest (item : ProductRow) : SimplifiedProduct :=
  { id := item.id
    name := item.name
    brand_name := brandNameOf item.brands
    brand_logo := brandLogoOf item.brands
    seller_id := item.seller_id
    seller_name := sellerNameOf item.sellers
    seller_logo := sellerLogoOf item.sellers
    image := firstImage item.images
    price := item.price
    created_at := some item.created_at
    sales_till_date := none }

/-- Row mapping of `getProductsByTag`: neither timestamp nor sales counter is
selected. -/
def simplifyByTag (item : ProductRow) : SimplifiedProduct :=
  { simplifyLatest item with created_at := none }

/-- Row mapping of `getOverallTopSellingProducts` and
`getTopSellingProductsByBrand`: selects `sales_till_date`, not `created_at`. -/
def simplifyTopSelling (item : ProductRow) : SimplifiedProduct :=
  { simplifyLatest item with
      created_at := none
      sales_till_date := some item.sales_till_date }

/-- Row mapping of `getTopSellingProductsBySeller`: selects both
`sales_till_date` and `created_at`. -/
def simplifyBySeller (item : ProductRow) : SimplifiedProduct :=
  { simplifyLatest item with sales_till_date := some item.sales_till_date }

/-- Embeds the pagination arithmetic `Math.ceil(totalCount / limit)` that every
listing operation computes inline; for the validated domain `limit >= 1` the
natural-number expression `(total + limit - 1) / limit` is exactly the ceiling
of the real quotient. -/
def ceilPages (total limit : Nat) : Nat :=
  (total + limit - 1) / limit

/-- Insertion of one element into a sorted list, for the order-by model. -/
def insertOrd {α : Type} (le : α → α → Bool) (a : α) : List α → List α
  | [] => [a]
  | b :: t => if le a b then a :: b :: t else b :: insertOrd le a t

/-- Stable sort modelling the client's `order(...)` clause. -/
def sortRows {α : Type} (le : α → α → Bool) : List α → List α
  | [] => []
  | a :: t => insertOrd le a (sortRows le t)

/-- Comparator for `order('created_at', ascending: false)`. -/
def byCreatedDesc (a b : ProductRow) : Bool :=
  decide (b.created_at ≤ a.created_at)

/-- Comparator for `order('sales_till_date', ascending: false)`. -/
def bySalesDesc (a b : ProductRow) : Bool :=
  decide (b.sales_till_date ≤ a.sales_till_date)

/-- Lexicographic character-list comparison, for `order('name', ascending: true)`. -/
def charListLe : List Char → List Char → Bool
  | [], _ => true
  | _ :: _, [] => false
  | a :: as, b :: bs => if a < b then true else if b < a then false else charListLe as bs

/-- Comparator for ordering by product name ascending. -/
def byNameAsc (a b : ProductRow) : Bool :=
  charListLe a.name.data b.name.data

/-- Filter `.not('tags','is',null).contains('tags',[tag])` of the by-tag queries. -/
def tagFilter (tag : ProductTag) (r : ProductRow) : Bool :=
  match r.tags with
  | some ts => ts.contains tag
  | none => false

/-- Shared shape of the five listing orchestrators: count query, then data
query with range `(offset, offset + limit - 1)` and an order clause, then
per-row simplification and the pagination envelope.  A failing count or data
query is propagated (`throw countError` / `throw error` in the source). -/
def runListing (s : Store) (countQ dataQ : Query) (matched : List ProductRow)
    (le : ProductRow → ProductRow → Bool) (offset limit page : Nat)
    (shape : ProductRow → SimplifiedProduct) : Outcome (PaginatedResult SimplifiedProduct) :=
  if countQ ∈ s.failing then { result := .error (), queries := [countQ] }
  else if dataQ ∈ s.failing then { result := .error (), queries := [countQ, dataQ] }
  else
    let totalCount := matched.length
    let rows := ((sortRows le matched).drop offset).take limit
    { result := .ok
        { data := rows.map shape
          total := totalCount
          page := page
          limit := limit
          totalPages := ceilPages totalCount limit }
      queries := [countQ, dataQ] }

/-- Embeds `ProductService.getLatestProducts`: active products ordered by
creation time descending. -/
def getLatestProducts (s : Store) (page limit : Nat) : Outcome (PaginatedResult SimplifiedProduct) :=
  let offset := (page - 1) * limit
  runListing s .countActive (.dataLatest offset limit)
    (s.products.filter (fun r => r.is_active)) byCreatedDesc offset limit page simplifyLatest

/-- Embeds the private `ProductService.getProductsByTag`: rows with a non-null
tag list containing the tag, ordered by name ascending. -/
def getProductsByTag (s : Store) (tag : ProductTag) (page limit : Nat) :
    Outcome (PaginatedResult SimplifiedProduct) :=
  let offset := (page - 1) * limit
  runListing s (.countTag tag) (.dataByTag tag offset limit)
    (s.products.filter (tagFilter tag)) byNameAsc offset limit page simplifyByTag

/-- Embeds `ProductService.getTrendingProducts`. -/
def getTrendingProducts (s : Store) (page limit : Nat) : Outcome (PaginatedResult SimplifiedProduct) :=
  getProductsByTag s .TRENDING page limit

/-- Embeds `ProductService.getRecommendedProducts`. -/
def getRecommendedProducts (s : Store) (page limit : Nat) : Outcome (PaginatedResult SimplifiedProduct) :=
  getProductsByTag s .RECOMMENDED page limit

/-- Embeds the private `ProductService.getOverallTopSellingProducts`: active
products ordered by sales descending. -/
def getOverallTopSellingProducts (s : Store) (page limit : Nat) :
    Outcome (PaginatedResult SimplifiedProduct) :=
  let offset := (page - 1) * limit
  runListing s .countActive (.dataOverall offset limit)
    (s.products.filter (fun r => r.is_active)) bySalesDesc offset limit page simplifyTopSelling

/-- Embeds `ProductService.getTopSellingProductsBySeller`. -/
def getTopSellingProductsBySeller (s : Store) (sellerId : String) (page limit : Nat) :
    Outcome (PaginatedResult SimplifiedProduct) :=
  let offset := (page - 1) * limit
  runListing s (.countActiveSeller sellerId) (.dataBySeller sellerId offset limit)
    (s.products.filter (fun r => r.is_active && r.seller_id == sellerId))
    bySalesDesc offset limit page simplifyBySeller

/-- Hex-digit test for the case-insensitive UUID regular expression. -/
def hexDigit (c : Char) : Bool :=
  (('0' ≤ c) && (c ≤ '9')) || (('a' ≤ c) && (c ≤ 'f')) || (('A' ≤ c) && (c ≤ 'F'))

/-- Version nibble constraint `[1-5]` of the UUID pattern. -/
def versionNibble (c : Char) : Bool :=
  ('1' ≤ c) && (c ≤ '5')

/-- Variant nibble constraint `[89ab]` with the `i` flag. -/
def variantNibble (c : Char) : Bool :=
  c == '8' || c == '9' || c == 'a' || c == 'b' || c == 'A' || c == 'B'

/-- Embeds the anchored test of the regular expression
`/^[0-9a-f]\x7b8\x7d-[0-9a-f]\x7b4\x7d-[1-5][0-9a-f]\x7b3\x7d-[89ab][0-9a-f]\x7b3\x7d-[0-9a-f]\x7b12\x7d$/i`
used by `getTopSellingProductsByBrand` to recognize a brand token as a UUID. -/
def isUuid (s : String) : Bool :=
  match s.data with
  | a1 :: a2 :: a3 :: a4 :: a5 :: a6 :: a7 :: a8 :: '-' :: b1 :: b2 :: b3 :: b4 :: '-' ::
    v :: c1 :: c2 :: c3 :: '-' :: w :: d1 :: d2 :: d3 :: '-' ::
    e1 :: e2 :: e3 :: e4 :: e5 :: e6 :: e7 :: e8 :: e9 :: e10 :: e11 :: e12 :: [] =>
    [a1, a2, a3, a4, a5, a6, a7, a8].all hexDigit &&
    [b1, b2, b3, b4].all hexDigit &&
    versionNibble v && [c1, c2, c3].all hexDigit &&
    variantNibble w && [d1, d2, d3].all hexDigit &&
    [e1, e2, e3, e4, e5, e6, e7, e8, e9, e10, e11, e12].all hexDigit
  | _ => false

/-- Case-folded character code, for the `ilike` name comparison. -/
def charLowerNat (c : Char) : Nat :=
  if 65 ≤ c.toNat && c.toNat ≤ 90 then c.toNat + 32 else c.toNat

/-- Case-insensitive string equality, modelling `ilike('name', token)` with a
pattern holding no wildcard characters. -/
def lowerEqStr (a b : String) : Bool :=
  a.data.map charLowerNat == b.data.map charLowerNat

/-- Embeds the brand-name lookup of `getTopSellingProductsByBrand`: a single
`ilike` row is required (`.single()` errors on zero or several matches), and a
failing query also yields the error branch. -/
def brandLookup (s : Store) (tok : String) : Except Unit String :=
  if Query.brandByName tok ∈ s.failing then .error ()
  else
    match s.brands.filter (fun b => lowerEqStr b.name tok) with
    | [b] => .ok b.id
    | _ => .error ()

/-- An empty pagination envelope, as built inline on the brand-lookup error
branch of `getTopSellingProductsByBrand`. -/
def emptyPage (page limit : Nat) : PaginatedResult SimplifiedProduct :=
  { data := [], total := 0, page := page, limit := limit, totalPages := 0 }

/-- Embeds the private `ProductService.getTopSellingProductsByBrand`: a token
matching the UUID pattern is used directly as the brand id; otherwise the name
lookup runs first, its failure degrading to an empty envelope. -/
def getTopSellingProductsByBrand (s : Store) (tok : String) (page limit : Nat) :
    Outcome (PaginatedResult SimplifiedProduct) :=
  let offset := (page - 1) * limit
  if isUuid tok then
    runListing s (.countActiveBrand tok) (.dataByBrand tok offset limit)
      (s.products.filter (fun r => r.is_active && r.brand_id == tok))
      bySalesDesc offset limit page simplifyTopSelling
  else
    match brandLookup s tok with
    | .error _ => { result := .ok (emptyPage page limit), queries := [Query.brandByName tok] }
    | .ok bid =>
      let inner := runListing s (.countActiveBrand bid) (.dataByBrand bid offset limit)
        (s.products.filter (fun r => r.is_active && r.brand_id == bid))
        bySalesDesc offset limit page simplifyTopSelling
      { result := inner.result, queries := Query.brandByName tok :: inner.queries }

/-- Return shape of `getTopSellingProducts`: either one overall envelope or a
mapping from the original brand tokens to per-brand envelopes. -/
inductive TopSellingOutput
  | overall (result : PaginatedResult SimplifiedProduct)
  | byBrand (results : List (String × PaginatedResult SimplifiedProduct))
deriving DecidableEq

/-- Merging step of the `Promise.all` fan-out: all per-brand outcomes must have
resolved for the combined mapping to resolve. -/
def collectBrandResults :
    List (String × Outcome (PaginatedResult SimplifiedProduct)) →
    Option (List (String × PaginatedResult SimplifiedProduct))
  | [] => some []
  | (tok, o) :: rest =>
    match o.result, collectBrandResults rest with
    | .ok r, some m => some ((tok, r) :: m)
    | _, _ => none

/-- Embeds `ProductService.getTopSellingProducts`: with no brands (absent or
empty list) it delegates to the overall pipeline, otherwise it fans out one
independent per-brand pipeline per token, keyed by the original token. -/
def getTopSellingProducts (s : Store) (page limit : Nat) (brands : Option (List String)) :
    Outcome TopSellingOutput :=
  match brands with
  | none =>
    let o := getOverallTopSellingProducts s page limit
    { result := o.result.map .overall, queries := o.queries }
  | some [] =>
    let o := getOverallTopSellingProducts s page limit
    { result := o.result.map .overall, queries := o.queries }
  | some bs =>
    let outs := bs.map (fun tok => (tok, getTopSellingProductsByBrand s tok page limit))
    { result :=
        match collectBrandResults outs with
        | some m => .ok (.byBrand m)
        | none => .error ()
      queries := (outs.map (fun p => p.2.queries)).flatten }

/-- Variant DTO construction of `getProductById`'s follow-up mapping. -/
def mkVariant (r : ProductRow) : ProductVariant :=
  { id := r.id, color := r.color, image := firstImage r.images }

/-- The detail DTO as `getProductById` assembles it from the fetched row and
the (possibly absent) resolved variant list. -/
def buildProductResponse (row : ProductRow) (variants : Option (List ProductVariant)) :
    ProductResponse :=
  { id := row.id
    name := row.name
    brand_name := brandNameOf row.brands
    brand_logo := brandLogoOf row.brands
    model_name := row.model_name
    images := row.images
    seller_id := row.seller_id
    seller_name := sellerNameOf row.sellers
    seller_logo := sellerLogoOf row.sellers
    color := row.color
    size_quantity := row.size_quantity
    price := row.price
    color_variants := variants
    tags := row.tags }

/-- Embeds `ProductService.getProductById`.  A failing or non-single detail
query yields null (the function catches everything and never rejects); a
non-empty `color_variants` list triggers the batched follow-up lookup, whose
own failure is swallowed, leaving the variants null. -/
def getProductById (s : Store) (pid : String) : Outcome (Option ProductResponse) :=
  let q := Query.selectById pid
  if q ∈ s.failing then { result := .ok none, queries := [q] }
  else
    match s.products.filter (fun r => r.id == pid) with
    | [row] =>
      match row.color_variants with
      | some (v :: vs) =>
        let ids := v :: vs
        let q2 := Query.selectVariants ids
        if q2 ∈ s.failing then
          { result := .ok (some (buildProductResponse row none)), queries := [q, q2] }
        else
          let found := s.products.filter (fun r => ids.contains r.id)
          { result := .ok (some (buildProductResponse row (some (found.map mkVariant))))
            queries := [q, q2] }
      | _ => { result := .ok (some (buildProductResponse row none)), queries := [q] }
    | _ => { result := .ok none, queries := [q] }

/-- Whitespace test used by the `parseInt` model. -/
def isSpaceChar (c : Char) : Bool :=
  c == ' ' || c == '\t' || c == '\n' || c == '\r'

/-- Accumulates a decimal digit run. -/
def digitsToNat (cs : List Char) : Nat :=
  cs.foldl (fun acc c => acc * 10 + (c.toNat - 48)) 0

/-- Reads a signed digit prefix; an empty digit run is NaN, modelled as none. -/
def parseDigits (neg : Bool) (cs : List Char) : Option Int :=
  let ds := cs.takeWhile Char.isDigit
  if ds.isEmpty then none
  else
    let n : Int := Int.ofNat (digitsToNat ds)
    some (if neg then -n else n)

/-- Embeds JavaScript `parseInt(q)` on an optional query-string value: leading
whitespace is skipped, an optional sign is read, then the decimal digit prefix;
no digits (including a missing parameter) gives NaN, modelled as none. -/
def jsParseInt (q : Option String) : Option Int :=
  match q with
  | none => none
  | some str =>
    match str.data.dropWhile isSpaceChar with
    | '-' :: t => parseDigits true t
    | '+' :: t => parseDigits false t
    | t => parseDigits false t

/-- Embeds the defaulting idiom `parseInt(q) || d`: both NaN and 0 are falsy
and select the default. -/
def jsOrIntDefault (v : Option Int) (d : Int) : Int :=
  match v with
  | some n => if n = 0 then d else n
  | none => d

/-- Observable behavior of a list controller: reject with a client error before
the service runs, or invoke the service with the given page and limit. -/
inductive CtrlOutcome
  | clientError
  | invoke (page limit : Int)
deriving DecidableEq

/-- Shared pagination parsing and validation of the list controllers:
`parseInt(req.query.page) || dPage`, `parseInt(req.query.limit) || dLimit`,
then `page < 1 || limit < 1 || limit > 50` rejects with status 400. -/
def paginationGate (qPage qLimit : Option String) (dPage dLimit : Int) : CtrlOutcome :=
  let page := jsOrIntDefault (jsParseInt qPage) dPage
  let limit := jsOrIntDefault (jsParseInt qLimit) dLimit
  if page < 1 ∨ limit < 1 ∨ limit > 50 then .clientError else .invoke page limit

/-- Embeds `ProductController.getTrendingProducts` (defaults page 1, limit 10). -/
def getTrendingProductsCtrl (qPage qLimit : Option String) : CtrlOutcome :=
  paginationGate qPage qLimit 1 10

/-- Embeds `ProductController.getLatestProducts` (defaults page 1, limit 12). -/
def getLatestProductsCtrl (qPage qLimit : Option String) : CtrlOutcome :=
  paginationGate qPage qLimit 1 12

/-!
Helper lemmas shared by the claim theorems.
-/

/-- The natural-number pagination arithmetic agrees with the real ceiling of
`total / limit` whenever the limit is positive. -/
theorem ceilPages_eq_ceil (total limit : Nat) (h : 0 < limit) :
    ceilPages total limit = ⌈(total : ℚ) / (limit : ℚ)⌉₊ := by
  rcases Nat.eq_zero_or_pos total with h0 | hpos
  · subst h0
    have hlt : limit - 1 < limit := Nat.sub_lt h Nat.one_pos
    simp [ceilPages, Nat.div_eq_of_lt hlt]
  · obtain ⟨m, rfl⟩ := Nat.exists_eq_succ_of_ne_zero (Nat.pos_iff_ne_zero.mp hpos)
    have hq : (0 : ℚ) < (limit : ℚ) := by exact_mod_cast h
    have hL : ceilPages (m + 1) limit = m / limit + 1 := by
      have : m + 1 + limit - 1 = m + limit := by omega
      rw [ceilPages, this, Nat.add_div_right m h]
    rw [hL]
    symm
    rw [Nat.ceil_eq_iff (Nat.succ_ne_zero _)]
    constructor
    · simp only [Nat.succ_sub_one]
      rw [lt_div_iff₀ hq]
      have hnat : m / limit * limit < m + 1 :=
        Nat.lt_succ_of_le (Nat.div_mul_le_self m limit)
      exact_mod_cast hnat
    · rw [div_le_iff₀ hq]
      have hnat : m + 1 ≤ (m / limit + 1) * limit := by
        have h1 := Nat.div_add_mod m limit
        have h2 := Nat.mod_lt m h
        calc m + 1 = limit * (m / limit) + m % limit + 1 := by rw [h1]
          _ = limit * (m / limit) + (m % limit + 1) := by rw [Nat.add_assoc]
          _ ≤ limit * (m / limit) + limit := Nat.add_le_add_left (Nat.succ_le_of_lt h2) _
          _ = (m / limit + 1) * limit := by ring
      exact_mod_cast hnat

/-- Claim-level pagination contract for one listing outcome: any resolved
envelope has `totalPages` equal to the real ceiling of `total / limit`, and a
zero total forces zero pages and an empty item sequence. -/
def paginationSpec (limit : Nat) (o : Outcome (PaginatedResult SimplifiedProduct)) : Prop :=
  ∀ r, o.result = .ok r →
    r.totalPages = ⌈(r.total : ℚ) / (limit : ℚ)⌉₊ ∧
    (r.total = 0 → r.totalPages = 0 ∧ r.data = [])

/-- Every listing built through `runListing` satisfies the pagination contract. -/
theorem runListing_paginationSpec (s : Store) (countQ dataQ : Query)
    (matched : List ProductRow) (le : ProductRow → ProductRow → Bool)
    (offset limit page : Nat) (shape : ProductRow → SimplifiedProduct)
    (hlim : 0 < limit) :
    paginationSpec limit (runListing s countQ dataQ matched le offset limit page shape) := by
  intro r hr
  unfold runListing at hr
  split at hr
  · simp at hr
  · split at hr
    · simp at hr
    · simp only at hr
      injection hr with hr
      subst hr
      refine ⟨ceilPages_eq_ceil matched.length limit hlim, fun h0 => ?_⟩
      have hnil : matched = [] := List.length_eq_zero.mp h0
      subst hnil
      have hlt : limit - 1 < limit := Nat.sub_lt hlim Nat.one_pos
      exact ⟨by simp [ceilPages, Nat.div_eq_of_lt hlt], by simp [sortRows]⟩

/-- The empty envelope satisfies the pagination contract trivially. -/
theorem emptyPage_paginationSpec (page limit : Nat) :
    (emptyPage page limit).totalPages = ⌈((emptyPage page limit).total : ℚ) / (limit : ℚ)⌉₊ ∧
    ((emptyPage page limit).total = 0 →
      (emptyPage page limit).totalPages = 0 ∧ (emptyPage page limit).data = []) := by
  refine ⟨?_, fun _ => ⟨rfl, rfl⟩⟩
  simp [emptyPage]

/-- C2: join normalization yields the same optional record for a bare record
and for the one-element collection holding it, and is idempotent: normalizing
an already-normalized value is the identity. -/
theorem normalizeRel_singleton_agree_and_idem {α : Type} (record : α) (v : JoinRel α) :
    normalizeRel (JoinRel.obj record) = normalizeRel (JoinRel.arr [record]) ∧
    normalizeRel (relOfOption (normalizeRel v)) = normalizeRel v := by
  refine ⟨rfl, ?_⟩
  cases v with
  | absent => rfl
  | obj record => rfl
  | arr records => cases records <;> rfl

/-- C5: invoking the top-selling orchestrator with the brands argument absent
or equal to the empty list returns exactly the overall top-selling pipeline's
outcome for that page and limit (wrapped in the union return shape), neither an
error nor an empty result. -/
theorem topSelling_zero_brands_delegates (s : Store) (page limit : Nat) :
    getTopSellingProducts s page limit none =
      { result := (getOverallTopSellingProducts s page limit).result.map TopSellingOutput.overall
        queries := (getOverallTopSellingProducts s page limit).queries } ∧
    getTopSellingProducts s page limit (some []) =
      { result := (getOverallTopSellingProducts s page limit).result.map TopSellingOutput.overall
        queries := (getOverallTopSellingProducts s page limit).queries } :=
  ⟨rfl, rfl⟩

/-- C1: every listing operation (latest, by-tag, top-selling overall, by
seller, by brand) invoked with page ≥ 1 and 1 ≤ limit ≤ 50 produces, whenever
it resolves, an envelope with totalPages equal to the ceiling of
total / limit; a zero total forces totalPages = 0 and an empty item list. -/
theorem listing_pagination_correct (s : Store) (page limit : Nat) (tag : ProductTag)
    (sellerId tok : String) (hp : 1 ≤ page) (hl1 : 1 ≤ limit) (hl2 : limit ≤ 50) :
    paginationSpec limit (getLatestProducts s page limit) ∧
    paginationSpec limit (getProductsByTag s tag page limit) ∧
    paginationSpec limit (getOverallTopSellingProducts s page limit) ∧
    paginationSpec limit (getTopSellingProductsBySeller s sellerId page limit) ∧
    paginationSpec limit (getTopSellingProductsByBrand s tok page limit) := by
  have hlim : 0 < limit := hl1
  refine ⟨runListing_paginationSpec _ _ _ _ _ _ _ _ _ hlim,
          runListing_paginationSpec _ _ _ _ _ _ _ _ _ hlim,
          runListing_paginationSpec _ _ _ _ _ _ _ _ _ hlim,
          runListing_paginationSpec _ _ _ _ _ _ _ _ _ hlim, ?_⟩
  intro r hr
  unfold getTopSellingProductsByBrand at hr
  split at hr
  · exact runListing_paginationSpec s _ _ _ _ _ limit page _ hlim r hr
  · split at hr
    · simp only at hr
      injection hr with hr
      subst hr
      exact emptyPage_paginationSpec page limit
    · exact runListing_paginationSpec s _ _ _ _ _ limit page _ hlim r hr

/-- Concrete product row used by the witness stores; joins are absent, so the
DTO fallbacks apply. -/
def demoRow (pid bid : String) (created sales : Nat) : ProductRow :=
  { id := pid
    name := pid
    brand_id := bid
    model_name := ""
    images := none
    seller_id := "s1"
    color := "red"
    size_quantity := []
    price := 10
    color_variants := none
    tags := none
    is_active := true
    sales_till_date := sales
    created_at := created
    sellers := .absent
    brands := .absent }

/-- Witness store: three active products with distinct creation times. -/
def demoStore : Store :=
  { products := [demoRow "p1" "b1" 1 5, demoRow "p2" "b1" 2 3, demoRow "p3" "b2" 3 1]
    brands := [{ id := "b1", name := "Nike" }, { id := "b2", name := "Adidas" }]
    failing := [] }

/-- First page of two latest products over `demoStore`: three matching rows,
two pages. -/
def demoLatestPage : PaginatedResult SimplifiedProduct :=
  { data := [simplifyLatest (demoRow "p3" "b2" 3 1), simplifyLatest (demoRow "p2" "b1" 2 3)]
    total := 3
    page := 1
    limit := 2
    totalPages := 2 }

/-- Witness for C1: the latest-products listing over the concrete store with
page 1 and limit 2 resolves, and the theorem yields its ceiling equation. -/
theorem listing_pagination_correct_witness :
    1 ≤ 1 ∧ 1 ≤ 2 ∧ 2 ≤ 50 ∧
    (getLatestProducts demoStore 1 2).result = Except.ok demoLatestPage ∧
    demoLatestPage.totalPages = ⌈(demoLatestPage.total : ℚ) / ((2 : Nat) : ℚ)⌉₊ := by
  refine ⟨by decide, by decide, by decide, by rfl, ?_⟩
  exact ((listing_pagination_correct demoStore 1 2 ProductTag.TRENDING "s1" "Nike"
    (by decide) (by decide) (by decide)).1 demoLatestPage (by rfl)).1

/-- C3: a brand token matching the canonical UUID textual pattern causes no
name-lookup query against the brands collection, and the count query as well
as any data query issued use the token itself as the brand identifier. -/
theorem uuid_token_bypasses_lookup (s : Store) (tok : String) (page limit : Nat)
    (h : isUuid tok = true) :
    (∀ nm, Query.brandByName nm ∉ (getTopSellingProductsByBrand s tok page limit).queries) ∧
    (getTopSellingProductsByBrand s tok page limit).queries.head? =
      some (Query.countActiveBrand tok) ∧
    (∀ b o m, Query.dataByBrand b o m ∈ (getTopSellingProductsByBrand s tok page limit).queries →
      b = tok ∧ o = (page - 1) * limit ∧ m = limit) := by
  by_cases hc : Query.countActiveBrand tok ∈ s.failing
  · simp [getTopSellingProductsByBrand, h, runListing, hc]
  · by_cases hd : Query.dataByBrand tok ((page - 1) * limit) limit ∈ s.failing
    · simp [getTopSellingProductsByBrand, h, runListing, hc, hd]
    · simp [getTopSellingProductsByBrand, h, runListing, hc, hd]

/-- Witness for C3: a concrete version-1 UUID token over the concrete store;
the first query issued is the count keyed by the token itself. -/
theorem uuid_token_bypasses_lookup_witness :
    isUuid "123e4567-e89b-12d3-a456-426614174000" = true ∧
    (getTopSellingProductsByBrand demoStore "123e4567-e89b-12d3-a456-426614174000" 1 8).queries.head? =
      some (Query.countActiveBrand "123e4567-e89b-12d3-a456-426614174000") :=
  ⟨by decide,
   (uuid_token_bypasses_lookup demoStore "123e4567-e89b-12d3-a456-426614174000" 1 8
     (by decide)).2.1⟩

/-- C4: in the multi-brand fan-out over tokens [A, B, C], a failed name
resolution for B (not a UUID, and the lookup errors or finds no single match)
yields the empty envelope for B keyed by its original token, while the entries
for A and C are exactly their independent per-brand outcomes, and the overall
operation still resolves. -/
theorem multi_brand_fanout_isolates_failure (s : Store) (page limit : Nat)
    (A B C : String) (ra rc : PaginatedResult SimplifiedProduct)
    (hA : (getTopSellingProductsByBrand s A page limit).result = .ok ra)
    (hB1 : isUuid B = false) (hB2 : brandLookup s B = .error ())
    (hC : (getTopSellingProductsByBrand s C page limit).result = .ok rc) :
    (getTopSellingProducts s page limit (some [A, B, C])).result =
      .ok (.byBrand [(A, ra), (B, emptyPage page limit), (C, rc)]) := by
  have hB : (getTopSellingProductsByBrand s B page limit).result = .ok (emptyPage page limit) := by
    unfold getTopSellingProductsByBrand
    simp [hB1, hB2]
  simp [getTopSellingProducts, collectBrandResults, hA, hB, hC]

/-- Envelope for the Nike token over the witness store: two active products
with that brand id, ordered by sales descending. -/
def demoNikePage : PaginatedResult SimplifiedProduct :=
  { data := [simplifyTopSelling (demoRow "p1" "b1" 1 5), simplifyTopSelling (demoRow "p2" "b1" 2 3)]
    total := 2
    page := 1
    limit := 8
    totalPages := 1 }

/-- Envelope for the Adidas token over the witness store: one matching product. -/
def demoAdidasPage : PaginatedResult SimplifiedProduct :=
  { data := [simplifyTopSelling (demoRow "p3" "b2" 3 1)]
    total := 1
    page := 1
    limit := 8
    totalPages := 1 }

/-- Witness for C4: tokens Nike / Puma / Adidas over the concrete store, where
Puma has no brands row; the mapping keeps Nike's and Adidas's envelopes and
degrades Puma's slot to the empty envelope. -/
theorem multi_brand_fanout_isolates_failure_witness :
    (getTopSellingProducts demoStore 1 8 (some ["Nike", "Puma", "Adidas"])).result =
      .ok (.byBrand [("Nike", demoNikePage), ("Puma", emptyPage 1 8), ("Adidas", demoAdidasPage)]) :=
  multi_brand_fanout_isolates_failure demoStore 1 8 "Nike" "Puma" "Adidas"
    demoNikePage demoAdidasPage (by rfl) (by decide) (by rfl) (by rfl)

/-- Upstream failure behavior of `runListing`: a failing count or data query
makes the listing propagate the error. -/
theorem runListing_error_propagates (s : Store) (countQ dataQ : Query)
    (matched : List ProductRow) (le : ProductRow → ProductRow → Bool)
    (offset limit page : Nat) (shape : ProductRow → SimplifiedProduct)
    (h : countQ ∈ s.failing ∨ dataQ ∈ s.failing) :
    (runListing s countQ dataQ matched le offset limit page shape).result = .error () := by
  unfold runListing
  by_cases hc : countQ ∈ s.failing
  · simp [hc]
  · rcases h with h | h
    · exact absurd h hc
    · simp [hc, h]

/-- Counterexample for C6: the claim extends error propagation to the detail
data query of `getProductById`, but a failing detail query there yields the
resolved not-found value (null), not a propagated failure. -/
theorem productById_error_not_propagated_cex :
    ¬ (∀ (s : Store) (pid : String), Query.selectById pid ∈ s.failing →
        (getProductById s pid).result = .error ()) := by
  intro hclaim
  have h := hclaim { products := [], brands := [], failing := [Query.selectById "p1"] } "p1"
    (by decide)
  simp [getProductById] at h

/-- C6 as amended: a failing count or data query is propagated unrecovered by
every listing operation (latest, by-tag, overall, by-seller, by-brand), while
`getProductById` instead converts a failure of its detail query into the
not-found result null. -/
theorem upstream_failure_propagation (s : Store) (page limit : Nat) (tag : ProductTag)
    (sellerId tok pid : String) :
    ((Query.countActive ∈ s.failing ∨ Query.dataLatest ((page - 1) * limit) limit ∈ s.failing) →
      (getLatestProducts s page limit).result = .error ()) ∧
    ((Query.countTag tag ∈ s.failing ∨ Query.dataByTag tag ((page - 1) * limit) limit ∈ s.failing) →
      (getProductsByTag s tag page limit).result = .error ()) ∧
    ((Query.countActive ∈ s.failing ∨ Query.dataOverall ((page - 1) * limit) limit ∈ s.failing) →
      (getOverallTopSellingProducts s page limit).result = .error ()) ∧
    ((Query.countActiveSeller sellerId ∈ s.failing ∨
        Query.dataBySeller sellerId ((page - 1) * limit) limit ∈ s.failing) →
      (getTopSellingProductsBySeller s sellerId page limit).result = .error ()) ∧
    (isUuid tok = true →
      (Query.countActiveBrand tok ∈ s.failing ∨
        Query.dataByBrand tok ((page - 1) * limit) limit ∈ s.failing) →
      (getTopSellingProductsByBrand s tok page limit).result = .error ()) ∧
    (Query.selectById pid ∈ s.failing → (getProductById s pid).result = .ok none) := by
  refine ⟨fun h => runListing_error_propagates _ _ _ _ _ _ _ _ _ h,
          fun h => runListing_error_propagates _ _ _ _ _ _ _ _ _ h,
          fun h => runListing_error_propagates _ _ _ _ _ _ _ _ _ h,
          fun h => runListing_error_propagates _ _ _ _ _ _ _ _ _ h,
          fun hu h => ?_, fun h => ?_⟩
  · unfold getTopSellingProductsByBrand
    simp only [hu, if_true]
    exact runListing_error_propagates _ _ _ _ _ _ _ _ _ h
  · unfold getProductById
    simp [h]

/-- Witness store for C6: the count query over active products and the detail
query for product p1 both fail. -/
def demoFailingStore : Store :=
  { products := [demoRow "p1" "b1" 1 5]
    brands := []
    failing := [Query.countActive, Query.selectById "p1"] }

/-- Witness for C6 as amended: over the failing store, the latest listing
propagates the error while `getProductById` resolves to null. -/
theorem upstream_failure_propagation_witness :
    (getLatestProducts demoFailingStore 1 12).result = .error () ∧
    (getProductById demoFailingStore "p1").result = .ok none := by
  have h := upstream_failure_propagation demoFailingStore 1 12 ProductTag.TRENDING "s1"
    "123e4567-e89b-12d3-a456-426614174000" "p1"
  exact ⟨h.1 (Or.inl (by decide)), h.2.2.2.2.2 (by decide)⟩

/-- Counterexample for C7: the page parameter value "0" is below the allowed
bound, yet the controller does not reject it — `parseInt('0') || 1` is falsy,
so the default is substituted and the core is invoked. -/
theorem zero_page_not_rejected_cex :
    ¬ (∀ (qPage qLimit : Option String) (n : Int),
        jsParseInt qPage = some n → n < 1 →
        getTrendingProductsCtrl qPage qLimit = .clientError) := by
  intro hclaim
  have h := hclaim (some "0") none 0 (by decide) (by decide)
  exact absurd h (by decide)

/-- Validation behavior of the shared controller gate under in-range defaults:
whenever the core is invoked the values are in bounds, and any nonzero parsed
value out of bounds is rejected with a client error. -/
theorem paginationGate_spec (qPage qLimit : Option String) (dPage dLimit : Int)
    (hdp : 1 ≤ dPage) (hdl1 : 1 ≤ dLimit) (hdl2 : dLimit ≤ 50) :
    (∀ p l, paginationGate qPage qLimit dPage dLimit = .invoke p l →
      1 ≤ p ∧ 1 ≤ l ∧ l ≤ 50) ∧
    (∀ n, jsParseInt qPage = some n → n ≠ 0 → n < 1 →
      paginationGate qPage qLimit dPage dLimit = .clientError) ∧
    (∀ n, jsParseInt qLimit = some n → n ≠ 0 → (n < 1 ∨ 50 < n) →
      paginationGate qPage qLimit dPage dLimit = .clientError) := by
  unfold paginationGate
  refine ⟨fun p l h => ?_, fun n hn hn0 hn1 => ?_, fun n hn hn0 hn1 => ?_⟩
  · simp only [] at h
    split at h
    · cases h
    · rename_i hcond
      push_neg at hcond
      injection h with h1 h2
      subst h1
      subst h2
      exact ⟨by omega, by omega, by omega⟩
  · have hpage : jsOrIntDefault (jsParseInt qPage) dPage = n := by
      rw [hn]
      simp [jsOrIntDefault, hn0]
    rw [hpage, if_pos (Or.inl hn1)]
  · have hlimit : jsOrIntDefault (jsParseInt qLimit) dLimit = n := by
      rw [hn]
      simp [jsOrIntDefault, hn0]
    rw [hlimit]
    rcases hn1 with hn1 | hn1
    · rw [if_pos (Or.inr (Or.inl hn1))]
    · rw [if_pos (Or.inr (Or.inr hn1))]

/-- C7 as amended: for the trending and latest list controllers, any nonzero
page or limit value out of the allowed bounds is rejected with a client error
before the core runs, a literal 0 parses falsy and is replaced by the endpoint
default, and in every case the core is only invoked with page ≥ 1 and
1 ≤ limit ≤ 50. -/
theorem list_ctrl_validation (qPage qLimit : Option String) :
    (∀ p l, getTrendingProductsCtrl qPage qLimit = .invoke p l → 1 ≤ p ∧ 1 ≤ l ∧ l ≤ 50) ∧
    (∀ p l, getLatestProductsCtrl qPage qLimit = .invoke p l → 1 ≤ p ∧ 1 ≤ l ∧ l ≤ 50) ∧
    (∀ n, jsParseInt qPage = some n → n ≠ 0 → n < 1 →
      getTrendingProductsCtrl qPage qLimit = .clientError ∧
      getLatestProductsCtrl qPage qLimit = .clientError) ∧
    (∀ n, jsParseInt qLimit = some n → n ≠ 0 → (n < 1 ∨ 50 < n) →
      getTrendingProductsCtrl qPage qLimit = .clientError ∧
      getLatestProductsCtrl qPage qLimit = .clientError) := by
  have h10 := paginationGate_spec qPage qLimit 1 10 (by decide) (by decide) (by decide)
  have h12 := paginationGate_spec qPage qLimit 1 12 (by decide) (by decide) (by decide)
  exact ⟨h10.1, h12.1,
         fun n hn hn0 hn1 => ⟨h10.2.1 n hn hn0 hn1, h12.2.1 n hn hn0 hn1⟩,
         fun n hn hn0 hn1 => ⟨h10.2.2 n hn hn0 hn1, h12.2.2 n hn hn0 hn1⟩⟩

/-- Witness for C7 as amended: page "-5" is rejected by the trending
controller, and the latest controller's defaulted invocation is in bounds. -/
theorem list_ctrl_validation_witness :
    getTrendingProductsCtrl (some "-5") (some "10") = .clientError ∧
    (1 ≤ (1 : Int) ∧ 1 ≤ (12 : Int) ∧ (12 : Int) ≤ 50) :=
  ⟨((list_ctrl_validation (some "-5") (some "10")).2.2.1 (-5) (by decide) (by decide)
      (by decide)).1,
   (list_ctrl_validation none none).2.1 1 12 (by decide)⟩

/-- An absent seller join resolves to the documented seller-name fallback. -/
theorem sellerNameOf_absent (r : JoinRel SellerJoin) (h : normalizeRel r = none) :
    sellerNameOf r = "Unknown Seller" := by
  simp [sellerNameOf, h, jsOrStr]

/-- An absent seller join resolves to the empty seller logo. -/
theorem sellerLogoOf_absent (r : JoinRel SellerJoin) (h : normalizeRel r = none) :
    sellerLogoOf r = "" := by
  simp [sellerLogoOf, h, jsOrStr]

/-- An absent brand join resolves to the documented brand-name fallback. -/
theorem brandNameOf_absent (r : JoinRel BrandJoin) (h : normalizeRel r = none) :
    brandNameOf r = "Unknown Brand" := by
  simp [brandNameOf, h, jsOrStr]

/-- An absent brand join resolves to the empty brand logo. -/
theorem brandLogoOf_absent (r : JoinRel BrandJoin) (h : normalizeRel r = none) :
    brandLogoOf r = "" := by
  simp [brandLogoOf, h, jsOrStr]

/-- C8: every row mapping (all four listing shapes and the detail DTO builder)
applies the documented fallbacks when the seller or brand join is absent, and
the representative image is the first element of the row's image list, or the
empty string when that list is missing or empty. -/
theorem dto_builder_fallbacks (row : ProductRow)
    (hs : normalizeRel row.sellers = none) (hb : normalizeRel row.brands = none) :
    ((simplifyLatest row).seller_name = "Unknown Seller" ∧
     (simplifyLatest row).seller_logo = "" ∧
     (simplifyLatest row).brand_name = "Unknown Brand" ∧
     (simplifyLatest row).brand_logo = "") ∧
    ((simplifyByTag row).seller_name = "Unknown Seller" ∧
     (simplifyByTag row).seller_logo = "" ∧
     (simplifyByTag row).brand_name = "Unknown Brand" ∧
     (simplifyByTag row).brand_logo = "") ∧
    ((simplifyTopSelling row).seller_name = "Unknown Seller" ∧
     (simplifyTopSelling row).seller_logo = "" ∧
     (simplifyTopSelling row).brand_name = "Unknown Brand" ∧
     (simplifyTopSelling row).brand_logo = "") ∧
    ((simplifyBySeller row).seller_name = "Unknown Seller" ∧
     (simplifyBySeller row).seller_logo = "" ∧
     (simplifyBySeller row).brand_name = "Unknown Brand" ∧
     (simplifyBySeller row).brand_logo = "") ∧
    ((buildProductResponse row none).seller_name = "Unknown Seller" ∧
     (buildProductResponse row none).seller_logo = "" ∧
     (buildProductResponse row none).brand_name = "Unknown Brand" ∧
     (buildProductResponse row none).brand_logo = "") ∧
    ((row.images = none ∨ row.images = some []) →
      (simplifyLatest row).image = "" ∧ (simplifyByTag row).image = "" ∧
      (simplifyTopSelling row).image = "" ∧ (simplifyBySeller row).image = "") ∧
    (∀ hd tl, row.images = some (hd :: tl) →
      (simplifyLatest row).image = hd ∧ (simplifyByTag row).image = hd ∧
      (simplifyTopSelling row).image = hd ∧ (simplifyBySeller row).image = hd) := by
  have h1 := sellerNameOf_absent row.sellers hs
  have h2 := sellerLogoOf_absent row.sellers hs
  have h3 := brandNameOf_absent row.brands hb
  have h4 := brandLogoOf_absent row.brands hb
  refine ⟨⟨h1, h2, h3, h4⟩, ⟨h1, h2, h3, h4⟩, ⟨h1, h2, h3, h4⟩, ⟨h1, h2, h3, h4⟩,
          ⟨h1, h2, h3, h4⟩, ?_, ?_⟩
  · rintro (h | h) <;>
      exact ⟨by simp [simplifyLatest, firstImage, h],
             by simp [simplifyByTag, simplifyLatest, firstImage, h],
             by simp [simplifyTopSelling, simplifyLatest, firstImage, h],
             by simp [simplifyBySeller, simplifyLatest, firstImage, h]⟩
  · intro hd tl h
    exact ⟨by simp [simplifyLatest, firstImage, h],
           by simp [simplifyByTag, simplifyLatest, firstImage, h],
           by simp [simplifyTopSelling, simplifyLatest, firstImage, h],
           by simp [simplifyBySeller, simplifyLatest, firstImage, h]⟩

/-- Witness row for C8: both joins absent (the brand one as an empty
collection), two images present. -/
def c8Row : ProductRow :=
  { demoRow "p9" "b9" 4 2 with
      images := some ["a.jpg", "b.jpg"]
      brands := .arr [] }

/-- Witness for C8: over the concrete row, the seller fallback applies and the
representative image is the first list element. -/
theorem dto_builder_fallbacks_witness :
    (simplifyLatest c8Row).seller_name = "Unknown Seller" ∧
    (simplifyLatest c8Row).brand_name = "Unknown Brand" ∧
    (simplifyLatest c8Row).image = "a.jpg" := by
  have h := dto_builder_fallbacks c8Row (by rfl) (by rfl)
  exact ⟨h.1.1, h.1.2.2.1, (h.2.2.2.2.2.2 "a.jpg" ["b.jpg"] rfl).1⟩

/-- C9: in `getProductById`, a null or empty `color_variants` id list issues no
follow-up lookup and leaves the DTO's variants null; a non-empty id list makes
the result contain exactly one resolved `ProductVariant` per row the batched
follow-up lookup returns, in the lookup's order, with no placeholder for ids
the lookup does not return. -/
theorem productById_variant_expansion (s : Store) (pid : String) (row : ProductRow)
    (hq : Query.selectById pid ∉ s.failing)
    (hrow : s.products.filter (fun r => r.id == pid) = [row]) :
    ((row.color_variants = none ∨ row.color_variants = some []) →
      (getProductById s pid).result = .ok (some (buildProductResponse row none)) ∧
      (buildProductResponse row none).color_variants = none ∧
      (getProductById s pid).queries = [Query.selectById pid]) ∧
    (∀ ids, row.color_variants = some ids → ids ≠ [] →
      Query.selectVariants ids ∉ s.failing →
      (getProductById s pid).result = .ok (some (buildProductResponse row
        (some ((s.products.filter (fun r => ids.contains r.id)).map mkVariant)))) ∧
      (getProductById s pid).queries = [Query.selectById pid, Query.selectVariants ids]) := by
  constructor
  · rintro (hcv | hcv) <;> exact ⟨by simp [getProductById, hq, hrow, hcv], rfl,
      by simp [getProductById, hq, hrow, hcv]⟩
  · intro ids hcv hne hq2
    obtain ⟨v, vs, rfl⟩ : ∃ v vs, ids = v :: vs := by
      cases ids with
      | nil => exact absurd rfl hne
      | cons v vs => exact ⟨v, vs, rfl⟩
    exact ⟨by simp [getProductById, hq, hrow, hcv, hq2],
           by simp [getProductById, hq, hrow, hcv, hq2]⟩

/-- Witness detail row for C9 and C10: product p0 referencing variants v1 and
v2, of which only v1 exists in the table. -/
def c9Main : ProductRow :=
  { demoRow "p0" "b1" 1 0 with color_variants := some ["v1", "v2"] }

/-- Witness variant row: the one variant id the follow-up lookup finds. -/
def c9Var : ProductRow :=
  { demoRow "v1" "b1" 1 0 with images := some ["v1.jpg"], color := "blue" }

/-- Witness store for C9: no failing queries. -/
def c9Store : Store :=
  { products := [c9Main, c9Var], brands := [], failing := [] }

/-- Witness for C9: the detail result resolves v1 and silently omits v2. -/
theorem productById_variant_expansion_witness :
    (getProductById c9Store "p0").result =
      .ok (some (buildProductResponse c9Main (some [mkVariant c9Var]))) := by
  have h := (productById_variant_expansion c9Store "p0" c9Main (by decide) (by rfl)).2
    ["v1", "v2"] rfl (by decide) (by decide)
  exact h.1

/-- C10: if the color-variant follow-up lookup itself reports an error,
`getProductById` swallows it and still resolves the product DTO with null
variants — it neither propagates the failure nor returns null. -/
theorem productById_variant_error_swallowed (s : Store) (pid : String) (row : ProductRow)
    (ids : List String)
    (hq : Query.selectById pid ∉ s.failing)
    (hrow : s.products.filter (fun r => r.id == pid) = [row])
    (hcv : row.color_variants = some ids) (hne : ids ≠ [])
    (hfail : Query.selectVariants ids ∈ s.failing) :
    (getProductById s pid).result = .ok (some (buildProductResponse row none)) ∧
    (buildProductResponse row none).color_variants = none := by
  obtain ⟨v, vs, rfl⟩ : ∃ v vs, ids = v :: vs := by
    cases ids with
    | nil => exact absurd rfl hne
    | cons v vs => exact ⟨v, vs, rfl⟩
  exact ⟨by simp [getProductById, hq, hrow, hcv, hfail], rfl⟩

/-- Witness store for C10: the batched variant lookup for p0's id list fails. -/
def c10Store : Store :=
  { products := [c9Main, c9Var], brands := []
    failing := [Query.selectVariants ["v1", "v2"]] }

/-- Witness for C10: over the failing store the detail DTO still resolves,
with null variants. -/
theorem productById_variant_error_swallowed_witness :
    (getProductById c10Store "p0").result = .ok (some (buildProductResponse c9Main none)) :=
  (productById_variant_error_swallowed c10Store "p0" c9Main ["v1", "v2"]
    (by decide) (by rfl) rfl (by decide) (by decide)).1
